import Mathlib

/-!
Verification development for the task-management chatbot backend
(src/main.py and src/mcp_server.py): a shallow embedding of the
intent-resolver and tool-registry core, with theorems settling the
frozen behavioural claims.

Modelling conventions:
* Python strings are Lean `String` / `List Char`; keyword containment
  (the Python `in` operator) is exact substring search.
* The regular expressions of extract_task_title / extract_task_id are
  hand-compiled to backtracking combinators with Python re semantics
  (leftmost search position, greedy quantifiers with backtracking,
  alternation and optional groups tried left/present first).
* Character classes follow the ASCII fragment of Python semantics:
  whitespace is space, tab, newline, carriage return, vertical tab and
  form feed; digits are 0-9; case-insensitivity lowercases A-Z.
* `datetime.utcnow()` is an explicit `now : Nat` parameter.
* The SQL store is a `TaskStore`: the task table in insertion order
  plus the next autoincrement id.  Raised exceptions are `Except.error`
  carrying the Python exception message.
-/

namespace TodoBot

/-- ASCII lower-casing on code points: maps 65-90 to 97-122, the model of
Python lower() restricted to ASCII. -/
def lcNat (n : Nat) : Nat := if 65 ≤ n && n ≤ 90 then n + 32 else n

/-- Case-insensitive character comparison, the model of re.IGNORECASE. -/
def ciEq (a b : Char) : Bool := lcNat a.toNat == lcNat b.toNat

/-- ASCII lower-casing of a character (model of str.lower per character). -/
def pyLowerChar (c : Char) : Char :=
  if 65 ≤ c.toNat && c.toNat ≤ 90 then Char.ofNat (c.toNat + 32) else c

/-- Model of str.lower (ASCII fragment). -/
def pyLower (s : String) : String := ⟨s.data.map pyLowerChar⟩

/-- Python whitespace class (ASCII fragment of the regex class \s and of
str.strip): space, tab, newline, carriage return, vertical tab, form feed. -/
def pyIsSpace (c : Char) : Bool :=
  c.toNat == 32 || c.toNat == 9 || c.toNat == 10 || c.toNat == 13 ||
  c.toNat == 11 || c.toNat == 12

/-- Python digit class (ASCII fragment of the regex class \d). -/
def pyIsDigit (c : Char) : Bool := 48 ≤ c.toNat && c.toNat ≤ 57

/-- The regex dot: any character except a newline. -/
def pyDot (c : Char) : Bool := c.toNat != 10

/-- Model of str.strip: drop the whitespace at both ends. -/
def pyStrip (s : List Char) : List Char :=
  ((s.dropWhile pyIsSpace).reverse.dropWhile pyIsSpace).reverse

/-- Exact list-prefix test (case-sensitive), first argument the pattern. -/
def listPre : List Char → List Char → Bool
  | [], _ => true
  | _ :: _, [] => false
  | a :: as, b :: bs => a == b && listPre as bs

/-- Exact substring test, the model of the Python `in` operator on strings. -/
def hasSub (kw : List Char) : List Char → Bool
  | [] => listPre kw []
  | c :: rest => listPre kw (c :: rest) || hasSub kw rest

/-- String containment: kw occurs in s (Python `kw in s`). -/
def strContains (s kw : String) : Bool := hasSub kw.data s.data

/-- The chat intents of the if/elif chain in main.py. -/
inductive Intent
  | add
  | list
  | complete
  | delete
  | update
  | unknown
deriving DecidableEq

/-- The intent-classification chain of chat_with_bot (main.py lines 60-124),
applied to the lowercased message: ordered keyword containment checks,
first match wins. -/
def classifyIntent (m : String) : Intent :=
  if strContains m "add" || strContains m "create" then .add
  else if strContains m "list" || strContains m "show" then .list
  else if strContains m "complete" || strContains m "done" ||
      strContains m "finish" then .complete
  else if strContains m "delete" || strContains m "remove" then .delete
  else if strContains m "update" || strContains m "change" then .update
  else .unknown


/-- Consume a literal word case-insensitively, returning the rest of the
input (one regex literal, under re.IGNORECASE). -/
def litMatchCI : List Char → List Char → Option (List Char)
  | [], s => some s
  | _ :: _, [] => none
  | p :: ps, c :: cs => if ciEq p c then litMatchCI ps cs else none

/-- Greedy one-or-more matching of a character class with backtracking,
after at least one class character has been consumed (acc holds the
consumed characters in reverse).  Tries to extend first; on failure of
the continuation backtracks one character at a time. -/
def plusExt {α : Type} (cls : Char → Bool) (acc : List Char) :
    List Char → (List Char → List Char → Option α) → Option α
  | [], k => k acc.reverse []
  | c :: cs, k =>
    if cls c then
      match plusExt cls (c :: acc) cs k with
      | some r => some r
      | none => k acc.reverse (c :: cs)
    else k acc.reverse (c :: cs)

/-- One-or-more repetition of a class, with capture: greedy, backtracking,
at least one character consumed.
The continuation receives the consumed run and the rest of the input. -/
def plusMatch {α : Type} (cls : Char → Bool)
    (k : List Char → List Char → Option α) : List Char → Option α
  | [] => none
  | c :: cs => if cls c then plusExt cls [c] cs k else none

/-- A final greedy `(.+)` capture group: the maximal non-newline run,
required non-empty (nothing follows it in the pattern). -/
def dotCapEnd (s : List Char) : Option (List Char) :=
  match s.takeWhile pyDot with
  | [] => none
  | c :: cs => some (c :: cs)

/-- A final greedy `(\d+)` capture group: the maximal digit run at the
current position, required non-empty. -/
def digitCapEnd (s : List Char) : Option (List Char) :=
  match s.takeWhile pyIsDigit with
  | [] => none
  | c :: cs => some (c :: cs)

/-- An optional group of the shape `(?:w\s+)?`: try the word followed by
whitespace first (with all its backtracking), else skip the group. -/
def optWordWs {α : Type} (w : List Char) (s : List Char)
    (k : List Char → Option α) : Option α :=
  match litMatchCI w s with
  | some r =>
    match plusMatch pyIsSpace (fun _ rest => k rest) r with
    | some res => some res
    | none => k s
  | none => k s

/-- Model of re.search: try the pattern matcher at every position from the
left, first success wins (the empty suffix included). -/
def pySearch {α : Type} (m : List Char → Option α) : List Char → Option α
  | [] => m []
  | c :: cs =>
    match m (c :: cs) with
    | some r => some r
    | none => pySearch m cs

/-- The first title template of extract_task_title:
add\s+(?:a\s+)?task\s+(?:to\s+)?(.+)  (main.py line 136). -/
def pat1Match (s : List Char) : Option (List Char) :=
  match litMatchCI "add".data s with
  | none => none
  | some r1 => plusMatch pyIsSpace (fun _ r2 =>
      optWordWs "a".data r2 (fun r3 =>
        match litMatchCI "task".data r3 with
        | none => none
        | some r4 => plusMatch pyIsSpace (fun _ r5 =>
            optWordWs "to".data r5 (fun r6 => dotCapEnd r6)) r4)) r1

/-- The second title template:
create\s+(?:a\s+)?task\s+(?:to\s+)?(.+)  (main.py line 137). -/
def pat2Match (s : List Char) : Option (List Char) :=
  match litMatchCI "create".data s with
  | none => none
  | some r1 => plusMatch pyIsSpace (fun _ r2 =>
      optWordWs "a".data r2 (fun r3 =>
        match litMatchCI "task".data r3 with
        | none => none
        | some r4 => plusMatch pyIsSpace (fun _ r5 =>
            optWordWs "to".data r5 (fun r6 => dotCapEnd r6)) r4)) r1

/-- The third title template:
(.+)\s+to\s+(?:my\s+)?(?:todo|task)  (main.py line 138). -/
def pat3Match (s : List Char) : Option (List Char) :=
  plusMatch pyDot (fun g rest =>
    plusMatch pyIsSpace (fun _ r2 =>
      match litMatchCI "to".data r2 with
      | none => none
      | some r3 => plusMatch pyIsSpace (fun _ r4 =>
          optWordWs "my".data r4 (fun r5 =>
            match litMatchCI "todo".data r5 with
            | some _ => some g
            | none =>
              match litMatchCI "task".data r5 with
              | some _ => some g
              | none => none)) r3) rest) s

/-- extract_task_title (main.py lines 133-144): try the three templates in
order via re.search; the first match yields its stripped capture group,
otherwise fall back to the whole stripped message. -/
def extract_task_title (message : String) : String :=
  match pySearch pat1Match message.data with
  | some g => ⟨pyStrip g⟩
  | none =>
    match pySearch pat2Match message.data with
    | some g => ⟨pyStrip g⟩
    | none =>
      match pySearch pat3Match message.data with
      | some g => ⟨pyStrip g⟩
      | none => ⟨pyStrip message.data⟩

/-- The optional prefix of the task-id pattern, (?:task\s+) followed by
the digit capture: present only when the whole of task, whitespace and
digits match here. -/
def patIdTaskBranch (s : List Char) : Option (List Char) :=
  match litMatchCI "task".data s with
  | some r1 => plusMatch pyIsSpace (fun _ rest => digitCapEnd rest) r1
  | none => none

/-- The task-id pattern (?:task\s+)?(\d+) of extract_task_id
(main.py line 148): try the optional task-prefix reading first, else
the bare digit capture. -/
def patIdMatch (s : List Char) : Option (List Char) :=
  match patIdTaskBranch s with
  | some g => some g
  | none => digitCapEnd s

/-- Numeric value of a digit run, the model of int() on a digit string. -/
def digitsToNat (ds : List Char) : Nat :=
  ds.foldl (fun acc c => acc * 10 + (c.toNat - 48)) 0

/-- extract_task_id (main.py lines 146-149): re.search the id pattern and
convert the capture group with int, None when there is no match. -/
def extract_task_id (message : String) : Option Nat :=
  (pySearch patIdMatch message.data).map digitsToNat

/-- Modelled from the wording of the spec for comparison (claim C7): the first
maximal run of digits in the text, if any. -/
def firstDigitRun : List Char → Option (List Char)
  | [] => none
  | c :: cs =>
    if pyIsDigit c then some ((c :: cs).takeWhile pyIsDigit)
    else firstDigitRun cs


/-- The Task record of models.py: one user-owned to-do item. -/
structure Task where
  id : Nat
  user_id : String
  title : String
  description : Option String
  completed : Bool
  created_at : Nat
  updated_at : Nat
deriving DecidableEq

/-- The task table: rows in insertion order (the natural order of the store)
plus the next autoincrement primary key. -/
structure TaskStore where
  tasks : List Task
  nextId : Nat
deriving DecidableEq

/-- One entry of the result of list_tasks_tool:
the dict of id, title and completed. -/
structure ListItem where
  id : Nat
  title : String
  completed : Bool
deriving DecidableEq

/-- A tool return value: either the single result dict of
add/complete/update/delete or the list of dicts of list_tasks. -/
inductive ToolResult
  | dict (task_id : Nat) (status : String) (title : String)
  | items (entries : List ListItem)
deriving DecidableEq

/-- The keyword arguments a tool invocation carries. -/
inductive ToolArgs
  | add (user_id title description : String)
  | list (user_id status : String)
  | complete (user_id : String) (task_id : Nat)
  | update (user_id : String) (task_id : Nat)
      (title description : Option String)
  | delete (user_id : String) (task_id : Nat)
deriving DecidableEq

/-- session.get(Task, task_id): primary-key lookup. -/
def getTask (store : TaskStore) (task_id : Nat) : Option Task :=
  store.tasks.find? (fun t => t.id == task_id)

/-- add_task_tool (mcp_server.py lines 19-25): insert a fresh task with
completed=False and the store-assigned id; both timestamps default to now. -/
def add_task_tool (user_id title description : String) (now : Nat)
    (store : TaskStore) : Except String ToolResult × TaskStore :=
  let task : Task :=
    ⟨store.nextId, user_id, title, some description, false, now, now⟩
  (.ok (.dict store.nextId "created" title),
   ⟨store.tasks ++ [task], store.nextId + 1⟩)

/-- list_tasks_tool (mcp_server.py lines 43-51): all tasks of the user in
store order, filtered by the status argument, projected to result dicts. -/
def list_tasks_tool (user_id status : String) (store : TaskStore) :
    List ListItem :=
  let tasks := store.tasks.filter (fun t => t.user_id == user_id)
  let tasks :=
    if status == "pending" then tasks.filter (fun t => !t.completed)
    else if status == "completed" then tasks.filter (fun t => t.completed)
    else tasks
  tasks.map (fun t => ⟨t.id, t.title, t.completed⟩)

/-- complete_task_tool (mcp_server.py lines 68-78): load by id, verify
ownership, set completed and refresh updated_at; raise ValueError
"Task not found" when the task is missing or owned by another user. -/
def complete_task_tool (user_id : String) (task_id : Nat) (now : Nat)
    (store : TaskStore) : Except String ToolResult × TaskStore :=
  match getTask store task_id with
  | none => (.error "Task not found", store)
  | some task =>
    if task.user_id != user_id then (.error "Task not found", store)
    else
      let task' := { task with completed := true, updated_at := now }
      (.ok (.dict task'.id "completed" task'.title),
       ⟨store.tasks.map (fun u => if u.id == task_id then task' else u),
        store.nextId⟩)

/-- update_task_tool (mcp_server.py lines 95-108): load by id, verify
ownership, overwrite title/description only when the argument is a
non-empty string (Python truthiness), refresh updated_at. -/
def update_task_tool (user_id : String) (task_id : Nat)
    (title description : Option String) (now : Nat)
    (store : TaskStore) : Except String ToolResult × TaskStore :=
  match getTask store task_id with
  | none => (.error "Task not found", store)
  | some task =>
    if task.user_id != user_id then (.error "Task not found", store)
    else
      let newTitle :=
        match title with
        | some t => if t == "" then task.title else t
        | none => task.title
      let newDescription :=
        match description with
        | some d => if d == "" then task.description else some d
        | none => task.description
      let task' := { task with
        title := newTitle, description := newDescription, updated_at := now }
      (.ok (.dict task'.id "updated" task'.title),
       ⟨store.tasks.map (fun u => if u.id == task_id then task' else u),
        store.nextId⟩)

/-- delete_task_tool (mcp_server.py lines 127-134): load by id, verify
ownership, remove the row. -/
def delete_task_tool (user_id : String) (task_id : Nat) (_now : Nat)
    (store : TaskStore) : Except String ToolResult × TaskStore :=
  match getTask store task_id with
  | none => (.error "Task not found", store)
  | some task =>
    if task.user_id != user_id then (.error "Task not found", store)
    else
      (.ok (.dict task.id "deleted" task.title),
       ⟨store.tasks.eraseP (fun u => u.id == task_id), store.nextId⟩)

/-- Declarative input schema carried by a registered tool (metadata only,
never consulted by the dispatch path). -/
structure InputSchema where
  properties : List (String × String)
  required : List String
deriving DecidableEq

/-- One registry entry, the Tool class of mcp_server.py lines 8-13. -/
structure ToolDef where
  name : String
  description : String
  inputSchema : InputSchema
  func : ToolArgs → Nat → TaskStore → Except String ToolResult × TaskStore

/-- Bound function of the add_task registry entry; a call with keyword
arguments of the wrong shape is a Python TypeError. -/
def addToolFn : ToolArgs → Nat → TaskStore →
    Except String ToolResult × TaskStore
  | .add user_id title description, now, store =>
    add_task_tool user_id title description now store
  | _, _, store => (.error "TypeError", store)

/-- Bound function of the list_tasks registry entry. -/
def listToolFn : ToolArgs → Nat → TaskStore →
    Except String ToolResult × TaskStore
  | .list user_id status, _, store =>
    (.ok (.items (list_tasks_tool user_id status store)), store)
  | _, _, store => (.error "TypeError", store)

/-- Bound function of the complete_task registry entry. -/
def completeToolFn : ToolArgs → Nat → TaskStore →
    Except String ToolResult × TaskStore
  | .complete user_id task_id, now, store =>
    complete_task_tool user_id task_id now store
  | _, _, store => (.error "TypeError", store)

/-- Bound function of the update_task registry entry. -/
def updateToolFn : ToolArgs → Nat → TaskStore →
    Except String ToolResult × TaskStore
  | .update user_id task_id title description, now, store =>
    update_task_tool user_id task_id title description now store
  | _, _, store => (.error "TypeError", store)

/-- Bound function of the delete_task registry entry. -/
def deleteToolFn : ToolArgs → Nat → TaskStore →
    Except String ToolResult × TaskStore
  | .delete user_id task_id, now, store =>
    delete_task_tool user_id task_id now store
  | _, _, store => (.error "TypeError", store)

/-- The TOOLS registry of mcp_server.py, in registration order. -/
def TOOLS : List ToolDef :=
  [⟨"add_task", "Create a new task",
    ⟨[("user_id", "string"), ("title", "string"), ("description", "string")],
     ["user_id", "title"]⟩, addToolFn⟩,
   ⟨"list_tasks", "Retrieve tasks",
    ⟨[("user_id", "string"), ("status", "string")], ["user_id"]⟩,
    listToolFn⟩,
   ⟨"complete_task", "Mark task as complete",
    ⟨[("user_id", "string"), ("task_id", "integer")],
     ["user_id", "task_id"]⟩, completeToolFn⟩,
   ⟨"update_task", "Update task title or description",
    ⟨[("user_id", "string"), ("task_id", "integer"), ("title", "string"),
      ("description", "string")], ["user_id", "task_id"]⟩, updateToolFn⟩,
   ⟨"delete_task", "Delete a task",
    ⟨[("user_id", "string"), ("task_id", "integer")],
     ["user_id", "task_id"]⟩, deleteToolFn⟩]

/-- handle_tool_call (mcp_server.py lines 151-158): scan the registry for
the first tool of the given name and invoke its bound function, raising
the ValueError naming the missing tool when no name matches. -/
def handle_tool_call (tool_name : String) (args : ToolArgs) (now : Nat)
    (store : TaskStore) : Except String ToolResult × TaskStore :=
  match TOOLS.find? (fun t => t.name == tool_name) with
  | some t => t.func args now store
  | none =>
    (.error ("Tool \x27" ++ tool_name ++ "\x27 not found"), store)


/-- The ChatResponse payload of main.py lines 40-42. -/
structure ChatResponse where
  conversation_id : Nat
  response : String
deriving DecidableEq

/-- Python truthiness of an Optional[int]: None and 0 are falsy. -/
def pyTruthyOptNat : Option Nat → Bool
  | some n => n != 0
  | none => false

/-- request.conversation_id or 1: Python `or` treats None and 0 as falsy. -/
def pyOrOne : Option Nat → Nat
  | some n => if n == 0 then 1 else n
  | none => 1

/-- One rendered line of the list reply. -/
def renderTaskLine (item : ListItem) : String :=
  "• " ++ toString item.id ++ ": " ++ item.title ++
  " (" ++ (if item.completed then "✅" else "⏳") ++ ")"

/-- The static help reply of the unknown-intent branch. -/
def helpText : String :=
  "🤖 I\x27m your Todo AI assistant! I can help you manage tasks. Try:\n" ++
  "• \"Add a task to buy groceries\"\n" ++
  "• \"Show me all my tasks\"\n" ++
  "• \"Mark task 1 as complete\"\n" ++
  "• \"Delete task 2\"\n" ++
  "• \"What\x27s pending?\" "

/-- The try-block body of chat_with_bot (main.py lines 56-126): lowercase
the message, walk the if/elif intent chain, extract parameters, dispatch
through the registry and render the reply.  An error value is a Python
exception escaping the body. -/
def chatBody (user_id : String) (conversation_id : Option Nat)
    (message0 : String) (now : Nat) (store : TaskStore) :
    Except String ChatResponse × TaskStore :=
  let message := pyLower message0
  let conv := pyOrOne conversation_id
  if strContains message "add" || strContains message "create" then
    let title := extract_task_title message
    if title != "" then
      match handle_tool_call "add_task"
          (.add user_id title ("Added via chat: " ++ message0)) now store with
      | (.ok (.dict _ _ t), store') =>
        (.ok ⟨conv, "✅ Task added: " ++ t⟩, store')
      | (.ok (.items _), store') => (.error "AttributeError", store')
      | (.error e, store') => (.error e, store')
    else
      (.ok ⟨conv,
        "❌ Could not extract task title. Please specify what task to add."⟩,
       store)
  else if strContains message "list" || strContains message "show" then
    let status :=
      if strContains message "pending" then "pending"
      else if strContains message "completed" || strContains message "done"
        then "completed"
      else "all"
    match handle_tool_call "list_tasks" (.list user_id status) now store with
    | (.ok (.items tasks), store') =>
      if tasks != [] then
        (.ok ⟨conv, "📋 Your " ++ status ++ " tasks:\n" ++
          String.intercalate "\n" (tasks.map renderTaskLine)⟩, store')
      else
        (.ok ⟨conv, "📭 No " ++ status ++ " tasks found."⟩, store')
    | (.ok (.dict _ _ _), store') => (.error "TypeError", store')
    | (.error e, store') => (.error e, store')
  else if strContains message "complete" || strContains message "done" ||
      strContains message "finish" then
    let task_id := extract_task_id message
    if pyTruthyOptNat task_id then
      match handle_tool_call "complete_task"
          (.complete user_id (task_id.getD 0)) now store with
      | (.ok (.dict _ _ t), store') =>
        (.ok ⟨conv, "✅ Task completed: " ++ t⟩, store')
      | (.ok (.items _), store') => (.error "TypeError", store')
      | (.error e, store') => (.error e, store')
    else
      (.ok ⟨conv,
        "❌ Could not identify task ID. Please specify which task to complete."⟩,
       store)
  else if strContains message "delete" || strContains message "remove" then
    let task_id := extract_task_id message
    if pyTruthyOptNat task_id then
      match handle_tool_call "delete_task"
          (.delete user_id (task_id.getD 0)) now store with
      | (.ok (.dict _ _ t), store') =>
        (.ok ⟨conv, "🗑️ Task deleted: " ++ t⟩, store')
      | (.ok (.items _), store') => (.error "TypeError", store')
      | (.error e, store') => (.error e, store')
    else
      (.ok ⟨conv,
        "❌ Could not identify task ID. Please specify which task to delete."⟩,
       store)
  else if strContains message "update" || strContains message "change" then
    let task_id := extract_task_id message
    let new_title := extract_task_title message
    if pyTruthyOptNat task_id && new_title != "" then
      match handle_tool_call "update_task"
          (.update user_id (task_id.getD 0) (some new_title) none) now store with
      | (.ok (.dict _ _ t), store') =>
        (.ok ⟨conv, "✏️ Task updated: " ++ t⟩, store')
      | (.ok (.items _), store') => (.error "TypeError", store')
      | (.error e, store') => (.error e, store')
    else
      (.ok ⟨conv, "❌ Could not identify task ID or new title."⟩, store)
  else
    (.ok ⟨conv, helpText⟩, store)

/-- chat_with_bot (main.py lines 54-130): run the body under the blanket
try/except that converts every escaping exception into the generic
HTTP 500 "Internal server error". -/
def chat_with_bot (user_id : String) (conversation_id : Option Nat)
    (message0 : String) (now : Nat) (store : TaskStore) :
    Except String ChatResponse × TaskStore :=
  match chatBody user_id conversation_id message0 now store with
  | (.ok r, store') => (.ok r, store')
  | (.error _, store') => (.error "Internal server error", store')

/-- An empty store whose autoincrement starts at 1, for concrete runs. -/
def store0 : TaskStore := ⟨[], 1⟩

/-- A store holding one pending task owned by user u1, for concrete runs. -/
def store1 : TaskStore := ⟨[⟨1, "u1", "buy milk", some "", false, 0, 0⟩], 2⟩

theorem task_data : "task".data = ['t', 'a', 's', 'k'] := rfl

theorem lcNat_of_digit {c : Char} (hc : pyIsDigit c = true) :
    lcNat c.toNat = c.toNat := by
  simp [pyIsDigit] at hc
  unfold lcNat
  split
  · next h => simp at h; omega
  · rfl

theorem ciEq_eq_false_of_digit {q c : Char} (hq : 96 < lcNat q.toNat)
    (hc : pyIsDigit c = true) : ciEq q c = false := by
  have h1 : c.toNat ≤ 57 := by simp [pyIsDigit] at hc; omega
  have h2 := lcNat_of_digit hc
  simp [ciEq, h2]
  omega

theorem space_not_digit {c : Char} (h : pyIsSpace c = true) :
    pyIsDigit c = false := by
  simp [pyIsSpace] at h
  simp [pyIsDigit]
  omega

theorem digitCapEnd_cons_neg {c : Char} {cs : List Char}
    (h : pyIsDigit c = false) : digitCapEnd (c :: cs) = none := by
  unfold digitCapEnd
  simp [List.takeWhile_cons, h]

theorem firstDigitRun_cons_neg {c : Char} {cs : List Char}
    (h : pyIsDigit c = false) : firstDigitRun (c :: cs) = firstDigitRun cs := by
  simp [firstDigitRun, h]

theorem firstDigitRun_dropWhile_space (xs : List Char) :
    firstDigitRun (xs.dropWhile pyIsSpace) = firstDigitRun xs := by
  induction xs with
  | nil => rfl
  | cons c cs ih =>
    by_cases h : pyIsSpace c = true
    · rw [List.dropWhile_cons_of_pos h, ih,
        firstDigitRun_cons_neg (space_not_digit h)]
    · rw [List.dropWhile_cons_of_neg h]

theorem digitCapEnd_firstDigitRun {t g : List Char}
    (h : digitCapEnd t = some g) : firstDigitRun t = some g := by
  cases t with
  | nil => simp [digitCapEnd, List.takeWhile] at h
  | cons e t' =>
    cases he : pyIsDigit e with
    | true =>
      unfold digitCapEnd at h
      simp [List.takeWhile_cons, he] at h
      simp [firstDigitRun, he, List.takeWhile_cons]
      exact h
    | false =>
      rw [digitCapEnd_cons_neg he] at h
      cases h

theorem plusExt_space_digitCap (xs : List Char) (acc : List Char) :
    plusExt pyIsSpace acc xs (fun _ rest => digitCapEnd rest) =
      digitCapEnd (xs.dropWhile pyIsSpace) := by
  induction xs generalizing acc with
  | nil => rfl
  | cons c cs ih =>
    cases h : pyIsSpace c with
    | true =>
      rw [List.dropWhile_cons_of_pos h]
      simp only [plusExt, h, if_true, ih]
      cases hdc : digitCapEnd (cs.dropWhile pyIsSpace) with
      | some r => rfl
      | none => exact digitCapEnd_cons_neg (space_not_digit h)
    | false =>
      rw [List.dropWhile_cons_of_neg (by simp [h])]
      simp [plusExt, h]

theorem plusMatch_space_digitCap {r g : List Char}
    (h : plusMatch pyIsSpace (fun _ rest => digitCapEnd rest) r = some g) :
    firstDigitRun r = some g := by
  cases r with
  | nil => cases h
  | cons x xs =>
    simp only [plusMatch] at h
    cases hx : pyIsSpace x with
    | false => rw [hx] at h; simp at h
    | true =>
      rw [hx] at h
      simp only [if_true, plusExt_space_digitCap] at h
      rw [firstDigitRun_cons_neg (space_not_digit hx),
        ← firstDigitRun_dropWhile_space]
      exact digitCapEnd_firstDigitRun h

theorem litMatchCI_firstDigitRun {p s r : List Char}
    (hp : ∀ q ∈ p, 96 < lcNat q.toNat)
    (h : litMatchCI p s = some r) : firstDigitRun s = firstDigitRun r := by
  induction p generalizing s with
  | nil => cases h; rfl
  | cons q ps ih =>
    cases s with
    | nil => cases h
    | cons c cs =>
      simp only [litMatchCI] at h
      cases hq : ciEq q c with
      | false => rw [hq] at h; simp at h
      | true =>
        rw [hq] at h
        simp only [if_true] at h
        have hcd : pyIsDigit c = false := by
          cases hcd : pyIsDigit c with
          | false => rfl
          | true =>
            rw [ciEq_eq_false_of_digit (hp q (by simp)) hcd] at hq
            cases hq
        rw [firstDigitRun_cons_neg hcd]
        exact ih (fun x hx => hp x (by simp [hx])) h

theorem patIdTaskBranch_firstDigitRun {s g : List Char}
    (h : patIdTaskBranch s = some g) : firstDigitRun s = some g := by
  unfold patIdTaskBranch at h
  cases hlm : litMatchCI "task".data s with
  | none => rw [hlm] at h; cases h
  | some r1 =>
    rw [hlm] at h
    rw [litMatchCI_firstDigitRun (by rw [task_data]; decide) hlm]
    exact plusMatch_space_digitCap h

theorem patIdTaskBranch_cons_digit {c : Char} {cs : List Char}
    (hd : pyIsDigit c = true) : patIdTaskBranch (c :: cs) = none := by
  have hci : ciEq 't' c = false :=
    ciEq_eq_false_of_digit (q := 't') (by decide) hd
  unfold patIdTaskBranch
  rw [task_data]
  simp [litMatchCI, hci]

theorem pySearch_patId (s : List Char) :
    pySearch patIdMatch s = firstDigitRun s := by
  induction s with
  | nil => rfl
  | cons c cs ih =>
    cases hd : pyIsDigit c with
    | true =>
      have hpm : patIdMatch (c :: cs) =
          some ((c :: cs).takeWhile pyIsDigit) := by
        unfold patIdMatch
        rw [patIdTaskBranch_cons_digit hd]
        unfold digitCapEnd
        simp [List.takeWhile_cons, hd]
      simp only [pySearch, hpm]
      simp [firstDigitRun, hd]
    | false =>
      rw [firstDigitRun_cons_neg hd]
      cases hpm : patIdMatch (c :: cs) with
      | none => simp only [pySearch, hpm]; exact ih
      | some g =>
        simp only [pySearch, hpm]
        unfold patIdMatch at hpm
        cases hb : patIdTaskBranch (c :: cs) with
        | none =>
          rw [hb, digitCapEnd_cons_neg hd] at hpm
          cases hpm
        | some g2 =>
          rw [hb] at hpm
          cases hpm
          have h1 := patIdTaskBranch_firstDigitRun hb
          rw [firstDigitRun_cons_neg hd] at h1
          exact h1.symm

theorem firstDigitRun_eq_none_iff (s : List Char) :
    firstDigitRun s = none ↔ ∀ c ∈ s, pyIsDigit c = false := by
  induction s with
  | nil => simp [firstDigitRun]
  | cons c cs ih =>
    cases h : pyIsDigit c with
    | true => simp [firstDigitRun, h]
    | false =>
      rw [firstDigitRun_cons_neg h, ih]
      simp [h]

/-- Claim C1: chat-message intent classification is first-match-wins in
exactly the order add/create, list/show, complete/done/finish,
delete/remove, update/change, unknown; in particular a message containing
both add and list keywords is classified add. -/
theorem intent_first_match (m : String) :
    ((strContains m "add" || strContains m "create") = true →
      classifyIntent m = .add) ∧
    ((strContains m "add" || strContains m "create") = false →
      (strContains m "list" || strContains m "show") = true →
      classifyIntent m = .list) ∧
    ((strContains m "add" || strContains m "create") = false →
      (strContains m "list" || strContains m "show") = false →
      (strContains m "complete" || strContains m "done" ||
        strContains m "finish") = true →
      classifyIntent m = .complete) ∧
    ((strContains m "add" || strContains m "create") = false →
      (strContains m "list" || strContains m "show") = false →
      (strContains m "complete" || strContains m "done" ||
        strContains m "finish") = false →
      (strContains m "delete" || strContains m "remove") = true →
      classifyIntent m = .delete) ∧
    ((strContains m "add" || strContains m "create") = false →
      (strContains m "list" || strContains m "show") = false →
      (strContains m "complete" || strContains m "done" ||
        strContains m "finish") = false →
      (strContains m "delete" || strContains m "remove") = false →
      (strContains m "update" || strContains m "change") = true →
      classifyIntent m = .update) ∧
    ((strContains m "add" || strContains m "create") = false →
      (strContains m "list" || strContains m "show") = false →
      (strContains m "complete" || strContains m "done" ||
        strContains m "finish") = false →
      (strContains m "delete" || strContains m "remove") = false →
      (strContains m "update" || strContains m "change") = false →
      classifyIntent m = .unknown) ∧
    (strContains m "add" = true → strContains m "list" = true →
      classifyIntent m = .add) := by
  refine ⟨?_, ?_, ?_, ?_, ?_, ?_, ?_⟩ <;> intros <;>
    simp_all [classifyIntent]

/-- Witness for C1 at the message add and then list, which contains both
the add and the list keyword and is classified add. -/
theorem intent_first_match_spot :
    strContains "add and then list" "add" = true ∧
    strContains "add and then list" "list" = true ∧
    classifyIntent "add and then list" = Intent.add :=
  ⟨by decide, by decide,
   (intent_first_match "add and then list").2.2.2.2.2.2
     (by decide) (by decide)⟩

/-- Claim C2, amended: extract_task_title tries the three regex templates
in order and falls back to the whole trimmed message when none matches;
the result is non-empty whenever no template matches and the trimmed
message is non-empty (a whitespace-only message trims to the empty
string, so the original unconditional non-emptiness fails). -/
theorem extract_task_title_template_order (m : String) :
    (∀ g, pySearch pat1Match m.data = some g →
      extract_task_title m = ⟨pyStrip g⟩) ∧
    (pySearch pat1Match m.data = none →
      ∀ g, pySearch pat2Match m.data = some g →
      extract_task_title m = ⟨pyStrip g⟩) ∧
    (pySearch pat1Match m.data = none → pySearch pat2Match m.data = none →
      ∀ g, pySearch pat3Match m.data = some g →
      extract_task_title m = ⟨pyStrip g⟩) ∧
    (pySearch pat1Match m.data = none → pySearch pat2Match m.data = none →
      pySearch pat3Match m.data = none →
      extract_task_title m = ⟨pyStrip m.data⟩) ∧
    (pyStrip m.data ≠ [] →
      pySearch pat1Match m.data = none → pySearch pat2Match m.data = none →
      pySearch pat3Match m.data = none →
      extract_task_title m ≠ "") := by
  refine ⟨?_, ?_, ?_, ?_, ?_⟩
  · intro g h1
    unfold extract_task_title
    rw [h1]
  · intro h1 g h2
    unfold extract_task_title
    rw [h1, h2]
  · intro h1 h2 g h3
    unfold extract_task_title
    rw [h1, h2, h3]
  · intro h1 h2 h3
    unfold extract_task_title
    rw [h1, h2, h3]
  · intro hne h1 h2 h3
    unfold extract_task_title
    rw [h1, h2, h3]
    intro hcontra
    exact hne (by simpa using congrArg String.data hcontra)

/-- Counterexample to C2 as stated: the one-space message is a non-empty
string, yet extract_task_title returns the empty string for it. -/
theorem extract_task_title_blank_counterexample :
    (" " : String) ≠ "" ∧ extract_task_title " " = "" :=
  ⟨by decide, by decide⟩

/-- Witness for C2 at the message hello: no template matches, the trimmed
message is non-empty, and the fallback result is non-empty. -/
theorem extract_task_title_template_order_spot :
    pyStrip "hello".data ≠ [] ∧ extract_task_title "hello" = "hello" ∧
    extract_task_title "hello" ≠ "" := by
  have h1 : pySearch pat1Match "hello".data = none := by decide
  have h2 : pySearch pat2Match "hello".data = none := by decide
  have h3 : pySearch pat3Match "hello".data = none := by decide
  have hs : pyStrip "hello".data ≠ [] := by decide
  refine ⟨hs, ?_,
    (extract_task_title_template_order "hello").2.2.2.2 hs h1 h2 h3⟩
  exact ((extract_task_title_template_order "hello").2.2.2.1 h1 h2 h3).trans
    (by decide)

/-- Claim C7: extract_task_id returns the integer value of the first run
of digits in the message and reports not-found exactly when the message
contains no digit, with the two documented examples. -/
theorem extract_task_id_first_digit_run (m : String) :
    extract_task_id m = (firstDigitRun m.data).map digitsToNat ∧
    (extract_task_id m = none ↔ ∀ c ∈ m.data, pyIsDigit c = false) ∧
    extract_task_id "complete task 42" = some 42 ∧
    extract_task_id "complete it" = none := by
  refine ⟨?_, ?_, by decide, by decide⟩
  · unfold extract_task_id
    rw [pySearch_patId]
  · unfold extract_task_id
    rw [pySearch_patId, ← firstDigitRun_eq_none_iff]
    cases firstDigitRun m.data <;> simp

/-- Claim C3: when the task of the given id is absent, or present but
owned by another user, complete_task, update_task and delete_task all
fail with the Task-not-found error and leave the store unchanged. -/
theorem ownership_isolation (u2 : String) (tid now : Nat)
    (title descr : Option String) (store : TaskStore)
    (h : ∀ task, getTask store tid = some task → task.user_id ≠ u2) :
    complete_task_tool u2 tid now store = (.error "Task not found", store) ∧
    update_task_tool u2 tid title descr now store =
      (.error "Task not found", store) ∧
    delete_task_tool u2 tid now store = (.error "Task not found", store) := by
  have hbr : ∀ task, getTask store tid = some task →
      (task.user_id != u2) = true :=
    fun task ht => bne_iff_ne.mpr (h task ht)
  refine ⟨?_, ?_, ?_⟩
  · unfold complete_task_tool
    cases hg : getTask store tid with
    | none => rfl
    | some task => simp [hbr task hg]
  · unfold update_task_tool
    cases hg : getTask store tid with
    | none => rfl
    | some task => simp [hbr task hg]
  · unfold delete_task_tool
    cases hg : getTask store tid with
    | none => rfl
    | some task => simp [hbr task hg]

/-- Witness for C3: user u2 operating on task 1, which exists but belongs
to u1, gets Task not found from all three tools and the store survives. -/
theorem ownership_isolation_spot :
    complete_task_tool "u2" 1 5 store1 = (.error "Task not found", store1) ∧
    update_task_tool "u2" 1 (some "x") none 5 store1 =
      (.error "Task not found", store1) ∧
    delete_task_tool "u2" 1 5 store1 = (.error "Task not found", store1) :=
  ownership_isolation "u2" 1 5 (some "x") none store1 (by
    intro task ht
    rw [show getTask store1 1 =
      some ⟨1, "u1", "buy milk", some "", false, 0, 0⟩ from rfl] at ht
    cases ht
    decide)

/-- Claim C4: adding a task and then listing with status all yields
exactly one entry of that title, not yet completed, provided the owner
had no task of that title before. -/
theorem add_then_list_roundtrip (owner title descr : String) (now : Nat)
    (store : TaskStore) (_htitle : title ≠ "")
    (hfresh : ∀ t ∈ store.tasks, t.user_id = owner → t.title ≠ title) :
    (list_tasks_tool owner "all"
        (add_task_tool owner title descr now store).2).filter
      (fun e => e.title == title) = [⟨store.nextId, title, false⟩] := by
  have hnil : ((store.tasks.filter (fun t => t.user_id == owner)).map
      (fun t : Task => (⟨t.id, t.title, t.completed⟩ : ListItem))).filter
      (fun e => e.title == title) = [] := by
    rw [List.filter_eq_nil_iff]
    intro e he
    rw [List.mem_map] at he
    obtain ⟨t, ht, rfl⟩ := he
    rw [List.mem_filter] at ht
    obtain ⟨htm, hto⟩ := ht
    have hne := hfresh t htm (by simpa using hto)
    simp [hne]
  unfold add_task_tool list_tasks_tool
  simp only [show (("all" : String) == "pending") = false from rfl,
    show (("all" : String) == "completed") = false from rfl,
    Bool.false_eq_true, if_false, List.filter_append, List.map_append]
  rw [hnil]
  simp

/-- Witness for C4: adding buy milk for u1 to the empty store and listing
all tasks yields exactly the one new pending entry. -/
theorem add_then_list_roundtrip_spot :
    (list_tasks_tool "u1" "all"
        (add_task_tool "u1" "buy milk" "d" 0 store0).2).filter
      (fun e => e.title == "buy milk") = [⟨1, "buy milk", false⟩] :=
  add_then_list_roundtrip "u1" "buy milk" "d" 0 store0 (by decide)
    (by intro t ht; simp [store0] at ht)

/-- Claim C5: list_tasks returns exactly the tasks of the owner in store
order — status pending keeps the not-completed ones, status completed
the completed ones, status all keeps everything — and the registry call
never fails, returning the (possibly empty) sequence. -/
theorem list_tasks_filter_spec (owner status : String) (now : Nat)
    (store : TaskStore) :
    list_tasks_tool owner "pending" store =
      (store.tasks.filter
        (fun t => t.user_id == owner && !t.completed)).map
        (fun t => ⟨t.id, t.title, t.completed⟩) ∧
    list_tasks_tool owner "completed" store =
      (store.tasks.filter
        (fun t => t.user_id == owner && t.completed)).map
        (fun t => ⟨t.id, t.title, t.completed⟩) ∧
    list_tasks_tool owner "all" store =
      (store.tasks.filter (fun t => t.user_id == owner)).map
        (fun t => ⟨t.id, t.title, t.completed⟩) ∧
    handle_tool_call "list_tasks" (.list owner status) now store =
      (.ok (.items (list_tasks_tool owner status store)), store) := by
  have hcomm : ∀ (p q : Task → Bool) (l : List Task),
      (l.filter q).filter p = l.filter (fun t => q t && p t) := by
    intro p q l
    rw [List.filter_filter]
    exact List.filter_congr (fun x _ => Bool.and_comm _ _)
  refine ⟨?_, ?_, rfl, rfl⟩
  · show (((store.tasks.filter (fun t => t.user_id == owner)).filter
        (fun t => !t.completed)).map
        (fun t => (⟨t.id, t.title, t.completed⟩ : ListItem))) = _
    rw [hcomm]
  · show (((store.tasks.filter (fun t => t.user_id == owner)).filter
        (fun t => t.completed)).map
        (fun t => (⟨t.id, t.title, t.completed⟩ : ListItem))) = _
    rw [hcomm]

/-- Claim C6: dispatching an unregistered name raises the tool-not-found
error, and dispatching any registered tool runs its bound function
directly, so whatever that function produces — errors included — reaches
the caller unchanged. -/
theorem handle_tool_call_dispatch (name : String) (args : ToolArgs)
    (now : Nat) (store : TaskStore) :
    (name ∉ ["add_task", "list_tasks", "complete_task", "update_task",
        "delete_task"] →
      handle_tool_call name args now store =
        (.error ("Tool \x27" ++ name ++ "\x27 not found"), store)) ∧
    (∀ td ∈ TOOLS, handle_tool_call td.name args now store =
      td.func args now store) := by
  constructor
  · intro hn
    simp only [List.mem_cons, List.not_mem_nil, or_false, not_or] at hn
    obtain ⟨n1, n2, n3, n4, n5⟩ := hn
    unfold handle_tool_call
    have hfind : TOOLS.find? (fun t => t.name == name) = none := by
      rw [List.find?_eq_none]
      intro t ht
      simp only [TOOLS, List.mem_cons, List.not_mem_nil, or_false] at ht
      rcases ht with rfl | rfl | rfl | rfl | rfl <;>
        simp [beq_eq_false_iff_ne] <;>
        first
        | exact Ne.symm n1
        | exact Ne.symm n2
        | exact Ne.symm n3
        | exact Ne.symm n4
        | exact Ne.symm n5
    rw [hfind]
  · intro td htd
    simp only [TOOLS, List.mem_cons, List.not_mem_nil, or_false] at htd
    rcases htd with rfl | rfl | rfl | rfl | rfl <;> rfl

/-- Witness for C6: an unregistered name and a registered name, dispatched
on the empty store. -/
theorem handle_tool_call_dispatch_spot :
    ("frobnicate" : String) ∉ ["add_task", "list_tasks", "complete_task",
      "update_task", "delete_task"] ∧
    handle_tool_call "frobnicate" (.list "u1" "all") 0 store0 =
      (.error "Tool \x27frobnicate\x27 not found", store0) ∧
    handle_tool_call "complete_task" (.complete "u1" 1) 0 store0 =
      completeToolFn (.complete "u1" 1) 0 store0 := by
  refine ⟨by decide, (handle_tool_call_dispatch "frobnicate"
    (.list "u1" "all") 0 store0).1 (by decide), ?_⟩
  exact (handle_tool_call_dispatch "complete_task"
      (.complete "u1" 1) 0 store0).2
    ⟨"complete_task", "Mark task as complete",
     ⟨[("user_id", "string"), ("task_id", "integer")],
      ["user_id", "task_id"]⟩, completeToolFn⟩
    (by unfold TOOLS
        exact List.mem_cons_of_mem _ (List.mem_cons_of_mem _
          (List.mem_cons_self _ _)))

/-- Claim C9: for a task owned by the caller, update_task overwrites only
the provided fields — a title of None or the empty string leaves the
stored title unchanged, likewise for description — while updated_at is
refreshed to now and id, owner, completed and created_at survive; the
task is replaced in place in the store. -/
theorem update_task_frame (owner : String) (tid now : Nat)
    (title descr : Option String) (store : TaskStore) (task : Task)
    (hfind : getTask store tid = some task)
    (howner : task.user_id = owner) :
    ∃ task',
      update_task_tool owner tid title descr now store =
        (.ok (.dict task'.id "updated" task'.title),
         ⟨store.tasks.map (fun u => if u.id == tid then task' else u),
          store.nextId⟩) ∧
      task'.id = task.id ∧ task'.user_id = task.user_id ∧
      task'.completed = task.completed ∧
      task'.created_at = task.created_at ∧ task'.updated_at = now ∧
      ((title = none ∨ title = some "") → task'.title = task.title) ∧
      ((descr = none ∨ descr = some "") →
        task'.description = task.description) := by
  refine ⟨{ task with
      title := match title with
        | some t => if t == "" then task.title else t
        | none => task.title,
      description := match descr with
        | some d => if d == "" then task.description else some d
        | none => task.description,
      updated_at := now }, ?_, rfl, rfl, rfl, rfl, rfl, ?_, ?_⟩
  · unfold update_task_tool
    rw [hfind]
    have hb : (task.user_id != owner) = false := by simp [howner]
    simp [hb]
  · rintro (rfl | rfl) <;> simp
  · rintro (rfl | rfl) <;> simp

/-- Witness for C9: updating task 1 of u1 with only a description leaves
the title, flags and creation time intact and refreshes updated_at. -/
theorem update_task_frame_spot :
    ∃ task',
      update_task_tool "u1" 1 none (some "nd") 7 store1 =
        (.ok (.dict task'.id "updated" task'.title),
         ⟨store1.tasks.map (fun u => if u.id == 1 then task' else u),
          store1.nextId⟩) ∧
      task'.id = 1 ∧ task'.user_id = "u1" ∧
      task'.completed = false ∧
      task'.created_at = 0 ∧ task'.updated_at = 7 ∧
      ((none : Option String) = none ∨ (none : Option String) = some "" →
        task'.title = "buy milk") ∧
      ((some "nd" : Option String) = none ∨
          (some "nd" : Option String) = some "" →
        task'.description = some "") :=
  update_task_frame "u1" 1 7 none (some "nd") store1
    ⟨1, "u1", "buy milk", some "", false, 0, 0⟩ rfl rfl

theorem classifyIntent_eq_complete {m : String}
    (h : classifyIntent m = .complete) :
    (strContains m "add" || strContains m "create") = false ∧
    (strContains m "list" || strContains m "show") = false ∧
    (strContains m "complete" || strContains m "done" ||
      strContains m "finish") = true := by
  cases h1 : (strContains m "add" || strContains m "create") with
  | true => simp [classifyIntent, h1] at h
  | false =>
    cases h2 : (strContains m "list" || strContains m "show") with
    | true => simp [classifyIntent, h1, h2] at h
    | false =>
      cases h3 : (strContains m "complete" || strContains m "done" ||
          strContains m "finish") with
      | true => exact ⟨rfl, rfl, rfl⟩
      | false =>
        cases h4 : (strContains m "delete" || strContains m "remove") with
        | true => simp [classifyIntent, h1, h2, h3, h4] at h
        | false =>
          cases h5 : (strContains m "update" || strContains m "change") with
          | true => simp [classifyIntent, h1, h2, h3, h4, h5] at h
          | false => simp [classifyIntent, h1, h2, h3, h4, h5] at h

theorem classifyIntent_eq_delete {m : String}
    (h : classifyIntent m = .delete) :
    (strContains m "add" || strContains m "create") = false ∧
    (strContains m "list" || strContains m "show") = false ∧
    (strContains m "complete" || strContains m "done" ||
      strContains m "finish") = false ∧
    (strContains m "delete" || strContains m "remove") = true := by
  cases h1 : (strContains m "add" || strContains m "create") with
  | true => simp [classifyIntent, h1] at h
  | false =>
    cases h2 : (strContains m "list" || strContains m "show") with
    | true => simp [classifyIntent, h1, h2] at h
    | false =>
      cases h3 : (strContains m "complete" || strContains m "done" ||
          strContains m "finish") with
      | true => simp [classifyIntent, h1, h2, h3] at h
      | false =>
        cases h4 : (strContains m "delete" || strContains m "remove") with
        | true => exact ⟨rfl, rfl, rfl, rfl⟩
        | false =>
          cases h5 : (strContains m "update" || strContains m "change") with
          | true => simp [classifyIntent, h1, h2, h3, h4, h5] at h
          | false => simp [classifyIntent, h1, h2, h3, h4, h5] at h

theorem classifyIntent_eq_update {m : String}
    (h : classifyIntent m = .update) :
    (strContains m "add" || strContains m "create") = false ∧
    (strContains m "list" || strContains m "show") = false ∧
    (strContains m "complete" || strContains m "done" ||
      strContains m "finish") = false ∧
    (strContains m "delete" || strContains m "remove") = false ∧
    (strContains m "update" || strContains m "change") = true := by
  cases h1 : (strContains m "add" || strContains m "create") with
  | true => simp [classifyIntent, h1] at h
  | false =>
    cases h2 : (strContains m "list" || strContains m "show") with
    | true => simp [classifyIntent, h1, h2] at h
    | false =>
      cases h3 : (strContains m "complete" || strContains m "done" ||
          strContains m "finish") with
      | true => simp [classifyIntent, h1, h2, h3] at h
      | false =>
        cases h4 : (strContains m "delete" || strContains m "remove") with
        | true => simp [classifyIntent, h1, h2, h3, h4] at h
        | false =>
          cases h5 : (strContains m "update" || strContains m "change") with
          | true => exact ⟨rfl, rfl, rfl, rfl, rfl⟩
          | false => simp [classifyIntent, h1, h2, h3, h4, h5] at h

/-- Claim C8 (the code at the failing input): for user u2 and the message
complete task 1 against a store whose task 1 belongs to u1, the tool
raises Task not found, and the chat handler — far from surfacing that
message in a user-facing reply — converts it into the generic
Internal server error signal.  The delete and update phrasings behave
the same way. -/
theorem notfound_surfaces_as_internal_error :
    complete_task_tool "u2" 1 5 store1 = (.error "Task not found", store1) ∧
    chat_with_bot "u2" none "complete task 1" 5 store1 =
      (.error "Internal server error", store1) ∧
    chat_with_bot "u2" none "delete task 1" 5 store1 =
      (.error "Internal server error", store1) ∧
    chat_with_bot "u2" none "update task 1 heading" 5 store1 =
      (.error "Internal server error", store1) :=
  ⟨rfl, rfl, rfl, rfl⟩

/-- Claim C10: a complete, delete or update message whose first digit run
is the single digit 0 extracts task id 0, but the chat handler treats the
falsy 0 as a missing id and replies with the could-not-identify error
without dispatching any tool, leaving the store untouched. -/
theorem task_id_zero_unreachable (user_id message0 : String)
    (conv : Option Nat) (now : Nat) (store : TaskStore)
    (hid : firstDigitRun (pyLower message0).data = some ['0']) :
    extract_task_id (pyLower message0) = some 0 ∧
    (classifyIntent (pyLower message0) = .complete →
      chat_with_bot user_id conv message0 now store =
        (.ok ⟨pyOrOne conv,
          "❌ Could not identify task ID. Please specify which task to complete."⟩,
         store)) ∧
    (classifyIntent (pyLower message0) = .delete →
      chat_with_bot user_id conv message0 now store =
        (.ok ⟨pyOrOne conv,
          "❌ Could not identify task ID. Please specify which task to delete."⟩,
         store)) ∧
    (classifyIntent (pyLower message0) = .update →
      chat_with_bot user_id conv message0 now store =
        (.ok ⟨pyOrOne conv, "❌ Could not identify task ID or new title."⟩,
         store)) := by
  have hex : extract_task_id (pyLower message0) = some 0 := by
    unfold extract_task_id
    rw [pySearch_patId, hid]
    rfl
  refine ⟨hex, ?_, ?_, ?_⟩
  · intro hc
    obtain ⟨h1, h2, h3⟩ := classifyIntent_eq_complete hc
    unfold chat_with_bot chatBody
    simp [h1, h2, h3, hex, pyTruthyOptNat]
  · intro hc
    obtain ⟨h1, h2, h3, h4⟩ := classifyIntent_eq_delete hc
    unfold chat_with_bot chatBody
    simp [h1, h2, h3, h4, hex, pyTruthyOptNat]
  · intro hc
    obtain ⟨h1, h2, h3, h4, h5⟩ := classifyIntent_eq_update hc
    unfold chat_with_bot chatBody
    simp [h1, h2, h3, h4, h5, hex, pyTruthyOptNat]

/-- Witness for C10: the message complete task 0, against a store that
does hold a task with id 0, yields the could-not-identify reply. -/
theorem task_id_zero_unreachable_spot :
    chat_with_bot "u1" none "complete task 0" 5
        (⟨[⟨0, "u1", "zero", none, false, 0, 0⟩], 1⟩ : TaskStore) =
      (.ok ⟨1,
        "❌ Could not identify task ID. Please specify which task to complete."⟩,
       (⟨[⟨0, "u1", "zero", none, false, 0, 0⟩], 1⟩ : TaskStore)) :=
  (task_id_zero_unreachable "u1" "complete task 0" none 5
    (⟨[⟨0, "u1", "zero", none, false, 0, 0⟩], 1⟩ : TaskStore)
    (by decide)).2.1 (by decide)

end TodoBot
